import Mathlib

/-
  Verification development for the API-Simulator mock HTTP service.

  Shallow embedding of the repository's core:
  - the deterministic dataset builder (src/data/index.js, generateAllData),
  - the entity generators (src/utils/generate.js),
  - the query layer (getUserById, getReposByOwner, getCommitsByRepo,
    paginate, SHA lookup),
  - the fault-injection engine (src/utils/errors.js: request counter,
    isRateLimited),
  - the hard-tier handlers for /users/:user_id/repos and
    /repos/:repo_id/commits (src/routes/hard.js) and the medium-tier
    handlers for /users/:user_id, /users/:user_id/repos and
    /commits/:commit_sha (src/routes/medium.js),
  - the file-content generator (generateFileContent) with its transient
    reseed/restore of the shared faker PRNG.

  Strings drawn from the external @faker-js library (usernames, commit
  messages, SHAs, timestamps, lorem sentences) are not computable from the
  repository's own code; where such a draw matters to a claim the
  development is parametric in the drawing function (for commit SHAs:
  a function `shaOf : Nat -> String` from the global commit id, since the
  builder draws one SHA per commit in ascending commit-id order; for lorem
  sentences: a state-advancing function `Nat -> String × Nat` over the
  faker PRNG state).  Record fields never consulted by any handler or
  claim (emails, descriptions, star counts, timestamps, ...) are omitted.
  JavaScript numbers that hold parsed route/query parameters are modelled
  as `Int` (parseInt of a numeric string), collection indices and sizes as
  `Nat`.
-/

set_option maxRecDepth 8000

namespace APISim

/-- A user record (src/utils/generate.js, generateUser).  Only the fields
consulted by the routes under verification are kept: `id` and the
soft-delete flag. -/
structure User where
  id : Nat
  deleted : Bool
deriving Repr, DecidableEq

/-- A repo record (generateRepo): `id` and `owner_id` foreign key. -/
structure Repo where
  id : Nat
  owner_id : Nat
deriving Repr, DecidableEq

/-- A commit record (generateCommit): `id`, `repo_id`, `author_id` and the
`sha` string drawn from faker. -/
structure Commit where
  id : Nat
  repo_id : Nat
  author_id : Nat
  sha : String
deriving Repr, DecidableEq

/-- A file record (generateFile): `id` and `repo_id` foreign key. -/
structure File where
  id : Nat
  repo_id : Nat
deriving Repr, DecidableEq

/-- generateUser(i, { deleted: ... }): the fields kept by the model. -/
def generateUser (id : Nat) (deleted : Bool) : User :=
  { id := id, deleted := deleted }

/-- generateRepo(i, ownerId): the fields kept by the model. -/
def generateRepo (id : Nat) (ownerId : Nat) : Repo :=
  { id := id, owner_id := ownerId }

/-- generateCommit(id, repoId, authorId) with the SHA draw made explicit. -/
def generateCommit (id : Nat) (repoId : Nat) (authorId : Nat) (sha : String) : Commit :=
  { id := id, repo_id := repoId, author_id := authorId, sha := sha }

/-- generateFile(i, repoId): the fields kept by the model. -/
def generateFile (id : Nat) (repoId : Nat) : File :=
  { id := id, repo_id := repoId }

/-- The 20 users of generateAllData: ids 1..20, id 18 soft-deleted. -/
def genUsers : List User :=
  (List.range 20).map (fun i => generateUser (i + 1) (i + 1 == 18))

/-- Owner assignment of generateAllData for repo `i` (1-based):
ids up to 45 pick cyclically from `usersWithRepos = [1..15]`
(`usersWithRepos[i % 15]`), ids 46..47 reference the deleted user 18,
ids 48..50 reference the non-existent users `20 + (i - 47)`. -/
def repoOwner (i : Nat) : Nat :=
  if i ≤ 45 then i % 15 + 1
  else if i ≤ 47 then 18
  else 20 + (i - 47)

/-- The 50 repos of generateAllData: ids 1..50 with `repoOwner`. -/
def genRepos : List Repo :=
  (List.range 50).map (fun i => generateRepo (i + 1) (repoOwner (i + 1)))

/-- Author assignment for the commit with global id `commitId`: every 20th
commit is authored by the deleted user 18, otherwise `commitId % 17 + 1`. -/
def commitAuthor (commitId : Nat) : Nat :=
  if commitId % 20 == 0 then 18 else commitId % 17 + 1

/-- Per-repo commit budget of generateAllData: `3 + (repoId % 6)`. -/
def numCommitsFor (repoId : Nat) : Nat :=
  3 + repoId % 6

/-- Inner loop of the commit generation
(`for (j = 0; j < numCommits && commitId <= 200; j++)`): `fuel` is the
remaining iterations of the `j` counter; returns the commits produced for
this repo together with the final value of the global `commitId`. -/
def genRepoCommits (shaOf : Nat → String) (repoId : Nat) :
    Nat → Nat → List Commit × Nat
  | commitId, 0 => ([], commitId)
  | commitId, fuel + 1 =>
    if commitId ≤ 200 then
      let rest := genRepoCommits shaOf repoId (commitId + 1) fuel
      (generateCommit commitId repoId (commitAuthor commitId) (shaOf commitId) :: rest.1,
       rest.2)
    else ([], commitId)

/-- Outer loop of commit generation
(`for (repoId = 1; repoId <= 40; repoId++)`): `remaining` repos starting
at `repoId`, threading the global `commitId`. -/
def genCommitsLoop (shaOf : Nat → String) : Nat → Nat → Nat → List Commit
  | _, 0, _ => []
  | repoId, remaining + 1, commitId =>
    let r := genRepoCommits shaOf repoId commitId (numCommitsFor repoId)
    r.1 ++ genCommitsLoop shaOf (repoId + 1) remaining r.2

/-- The commits of generateAllData: repos 1..40, global id starting at 1. -/
def genCommits (shaOf : Nat → String) : List Commit :=
  genCommitsLoop shaOf 1 40 1

/-- The 30 files of generateAllData: ids 1..30,
`repo_id = ((id - 1) % 25) + 1`. -/
def genFiles : List File :=
  (List.range 30).map (fun i => generateFile (i + 1) (i % 25 + 1))

/-- The four collections produced by generateAllData. -/
structure Dataset where
  users : List User
  repos : List Repo
  commits : List Commit
  files : List File
deriving Repr, DecidableEq

/-- generateAllData (src/data/index.js): builds the whole dataset,
parametric in the faker SHA stream. -/
def generateAllData (shaOf : Nat → String) : Dataset :=
  { users := genUsers
    repos := genRepos
    commits := genCommits shaOf
    files := genFiles }

/-- Concrete stand-in for the external faker SHA stream, used to
instantiate parametric theorems on concrete inputs. -/
def fakerShaStream (n : Nat) : String := toString n

/-- getUserById: `users.find(u => u.id === parseInt(id))`. -/
def getUserById (users : List User) (id : Int) : Option User :=
  users.find? (fun u => ((u.id : Int) == id))

/-- getReposByOwner: `repos.filter(r => r.owner_id === parseInt(ownerId))`. -/
def getReposByOwner (repos : List Repo) (ownerId : Int) : List Repo :=
  repos.filter (fun r => ((r.owner_id : Int) == ownerId))

/-- getRepoById: `repos.find(r => r.id === parseInt(id))`. -/
def getRepoById (repos : List Repo) (id : Int) : Option Repo :=
  repos.find? (fun r => ((r.id : Int) == id))

/-- getCommitsByRepo: `commits.filter(c => c.repo_id === parseInt(repoId))`. -/
def getCommitsByRepo (commits : List Commit) (repoId : Int) : List Commit :=
  commits.filter (fun c => ((c.repo_id : Int) == repoId))

/-- getFileById: `files.find(f => f.id === parseInt(id))`. -/
def getFileById (files : List File) (id : Int) : Option File :=
  files.find? (fun f => ((f.id : Int) == id))

/-- Clamping of one slice index as performed by JavaScript
`Array.prototype.slice`: a negative index counts from the end (clamped at
0), a non-negative one is clamped at the length. -/
def jsSliceBound (len : Nat) (i : Int) : Nat :=
  if i < 0 then ((len : Int) + i).toNat else min i.toNat len

/-- JavaScript `array.slice(start, end)` on a list. -/
def jsSlice {α : Type} (l : List α) (start stop : Int) : List α :=
  (l.take (jsSliceBound l.length stop)).drop (jsSliceBound l.length start)

/-- The pagination envelope returned by paginate. -/
structure Paginated (α : Type) where
  data : List α
  total : Nat
  page : Int
  per_page : Nat
  total_pages : Nat
deriving Repr, DecidableEq

/-- paginate (src/data/index.js): `start = (page-1)*perPage`,
`data = array.slice(start, start+perPage)`, `total_pages =
Math.ceil(array.length / perPage)` (the Nat formula `(len+n-1)/n` agrees
with the real ceiling for every `perPage ≥ 1`, which covers all call
sites: the per-page argument is one of the constants 5/10/20 or a parsed
query value defaulted to a positive constant). -/
def paginate {α : Type} (array : List α) (page : Int) (perPage : Nat) : Paginated α :=
  let start : Int := (page - 1) * perPage
  { data := jsSlice array start (start + perPage)
    total := array.length
    page := page
    per_page := perPage
    total_pages := (array.length + perPage - 1) / perPage }

/-- The match predicate of the medium-tier commit-by-SHA lookup:
`c.sha === sha || c.sha.startsWith(sha)`.  JavaScript `startsWith` is
modelled character-wise: the query is a prefix of the stored SHA. -/
def shaMatches (q : String) (c : Commit) : Bool :=
  c.sha == q || q.data.isPrefixOf c.sha.data

/-- Commit lookup by SHA (medium GET /commits/:commit_sha):
`commits.find(c => c.sha === sha || c.sha.startsWith(sha))`. -/
def findCommitBySha (commits : List Commit) (q : String) : Option Commit :=
  commits.find? (shaMatches q)

/-
  Fault-injection engine (src/utils/errors.js).  The module-global
  `requestCounter` is threaded explicitly: each function takes the current
  counter and returns the new one where it mutates it.
-/

/-- resetRequestCounter(): the counter value after a reset (also its
value at process start). -/
def resetRequestCounter : Nat := 0

/-- getRequestCount(): `++requestCounter` — returns the post-increment
value together with the new counter state. -/
def getRequestCount (counter : Nat) : Nat × Nat :=
  (counter + 1, counter + 1)

/-- isRateLimited(): `requestCounter % 5 === 0` on the current counter. -/
def isRateLimited (counter : Nat) : Bool :=
  counter % 5 == 0

/-- The rate-limit check sequence performed by the hard-tier handler:
`getRequestCount()` (increment) followed by `isRateLimited()` (test the
new counter value); returns the verdict and the new counter. -/
def rateLimitCheck (counter : Nat) : Bool × Nat :=
  let c := (getRequestCount counter).2
  (isRateLimited c, c)

/-- Runs `n` successive rate-limit checks from the given counter state and
collects the verdicts in call order. -/
def runRateLimitChecks : Nat → Nat → List Bool
  | 0, _ => []
  | n + 1, counter =>
    (rateLimitCheck counter).1 :: runRateLimitChecks n (rateLimitCheck counter).2

/-- htmlErrorPage(statusCode, message) (src/utils/errors.js): the minimal
HTML document embedding status and message. -/
def htmlErrorPage (statusCode : Nat) (message : String) : String :=
  "<!DOCTYPE html>\n<html>\n<head>\n  <title>Error " ++ toString statusCode ++
  "</title>\n  <style>\n    body \x7b font-family: Arial, sans-serif; margin: 40px; \x7d\n" ++
  "    h1 \x7b color: #c00; \x7d\n    .error-code \x7b font-size: 72px; color: #999; \x7d\n" ++
  "  </style>\n</head>\n<body>\n  <div class=\"error-code\">" ++ toString statusCode ++
  "</div>\n  <h1>Service Error</h1>\n  <p>" ++ message ++
  "</p>\n  <p>Please try again later.</p>\n</body>\n</html>"

/-
  Hard-tier handlers (src/routes/hard.js).
-/

/-- Response of the hard-tier GET /users/:user_id/repos handler: the HTTP
status, the `retry_after` body field of the 429 response, and the repo
payload of the normal response. -/
structure UserReposResp where
  status : Nat
  retry_after : Option Nat
  data : List Repo
deriving Repr, DecidableEq

/-- Truth of `user && user.deleted` on an optional lookup result. -/
def optionDeleted : Option User → Bool
  | some u => u.deleted
  | none => false

/-- The hard-tier GET /users/:user_id/repos handler.  Branch order as in
the source: rate limit (increment, then divisibility test), then
`user && user.deleted` → 404, then `userId > 15` → 403, then `!user` →
404, else the owner's repos.  Returns the response and the new counter. -/
def hardUserRepos (counter : Nat) (userId : Int) : UserReposResp × Nat :=
  let reqCount := (getRequestCount counter).2
  if isRateLimited reqCount then
    ({ status := 429, retry_after := some 2, data := [] }, reqCount)
  else
    let user := getUserById genUsers userId
    if optionDeleted user then
      ({ status := 404, retry_after := none, data := [] }, reqCount)
    else if 15 < userId then
      ({ status := 403, retry_after := none, data := [] }, reqCount)
    else if user.isNone then
      ({ status := 404, retry_after := none, data := [] }, reqCount)
    else
      ({ status := 200, retry_after := none, data := getReposByOwner genRepos userId }, reqCount)

/-- Response of the hard-tier GET /repos/:repo_id/commits handler: status,
whether the body is the HTML error page (Content-Type text/html), the
pagination envelope of the 200 responses, and the `next_page` / `has_more`
fields. -/
structure RepoCommitsResp where
  status : Nat
  isHtml : Bool
  paginated : Option (Paginated Commit)
  next_page : Option Int
  has_more : Bool
deriving Repr, DecidableEq

/-- The hard-tier GET /repos/:repo_id/commits handler.  Branch order as in
the source: `repoId % 7 === 0` → 503, `repoId === 13` → 500 with the HTML
error page, `repoId === 5` → pagination (5 per page) with `next_page`
echoing the requested page and `has_more` always true, otherwise normal
pagination (10 per page) with `next_page = page + 1` while
`page < total_pages`, else null. -/
def hardRepoCommits (commits : List Commit) (repoId : Int) (page : Int) : RepoCommitsResp :=
  if repoId % 7 == 0 then
    { status := 503, isHtml := false, paginated := none, next_page := none, has_more := false }
  else if repoId == 13 then
    { status := 500, isHtml := true, paginated := none, next_page := none, has_more := false }
  else
    let repoCommits := getCommitsByRepo commits repoId
    if repoId == 5 then
      { status := 200, isHtml := false
        paginated := some (paginate repoCommits page 5)
        next_page := some page
        has_more := true }
    else
      let p := paginate repoCommits page 10
      { status := 200, isHtml := false
        paginated := some p
        next_page := if p.page < (p.total_pages : Int) then some (p.page + 1) else none
        has_more := p.page < (p.total_pages : Int) }

/-
  Medium-tier handlers (src/routes/medium.js).
-/

/-- Response of the medium-tier GET /users/:user_id handler: status plus
the computed metadata of the 200 response. -/
structure MedUserResp where
  status : Nat
  repo_count : Option Nat
  commit_count : Option Nat
  repo_ids : List Nat
deriving Repr, DecidableEq

/-- The medium-tier GET /users/:user_id handler: `!user` → 404,
`user.deleted` → 410 (gone), else the user with repo/commit counts. -/
def mediumGetUser (commits : List Commit) (userId : Int) : MedUserResp :=
  match getUserById genUsers userId with
  | none =>
    { status := 404, repo_count := none, commit_count := none, repo_ids := [] }
  | some u =>
    if u.deleted then
      { status := 410, repo_count := none, commit_count := none, repo_ids := [] }
    else
      let userRepos := getReposByOwner genRepos userId
      let userCommits := commits.filter (fun c => ((c.author_id : Int) == userId))
      { status := 200
        repo_count := some userRepos.length
        commit_count := some userCommits.length
        repo_ids := userRepos.map Repo.id }

/-- Response of the medium-tier GET /users/:user_id/repos handler: status,
repo payload and the `_extraction_hint.values` array. -/
structure MedUserReposResp where
  status : Nat
  data : List Repo
  extraction_values : List Nat
deriving Repr, DecidableEq

/-- The medium-tier GET /users/:user_id/repos handler: `!user` → 404,
`user.deleted` → 404 (collapsed into not-found for the nested listing),
else the owner's repos with the extraction hint. -/
def mediumGetUserRepos (userId : Int) : MedUserReposResp :=
  match getUserById genUsers userId with
  | none =>
    { status := 404, data := [], extraction_values := [] }
  | some u =>
    if u.deleted then
      { status := 404, data := [], extraction_values := [] }
    else
      let userRepos := getReposByOwner genRepos userId
      { status := 200, data := userRepos, extraction_values := userRepos.map Repo.id }

/-
  File-content generation (src/utils/generate.js, generateFileContent).
  The faker PRNG is modelled as a state of type Nat: `faker.seed(n)`
  replaces the state by `fakerSeed n`, and each `faker.lorem.sentence()`
  call is a state-advancing draw `lorem : Nat → String × Nat` in which the
  development is parametric (the sentence text comes from the external
  library).
-/

/-- faker.seed(n): the PRNG state determined by the seed `n`. -/
def fakerSeed (n : Nat) : Nat := n

/-- The body-building loop of generateFileContent:
`for (i = 0; i < 50; i++)` pushing a section header every 10 lines and one
`const value_i = "<sentence>";` line per iteration, threading the PRNG
state through the sentence draws.  `fuel` is the number of remaining
iterations, `i` the loop counter. -/
def contentLoop (lorem : Nat → String × Nat) : Nat → Nat → Nat → List String × Nat
  | 0, _, st => ([], st)
  | fuel + 1, i, st =>
    let secLines : List String :=
      if i % 10 == 0 then ["\n// Section " ++ toString (i / 10 + 1)] else []
    let sentence := (lorem st).1
    let rest := contentLoop lorem fuel (i + 1) (lorem st).2
    (secLines ++ ("const value_" ++ toString i ++ " = \"" ++ sentence ++ "\";") :: rest.1,
     rest.2)

/-- generateFileContent(fileId): reseeds the shared PRNG with
`fileId * 1000`, builds the header, the 50-line body and the footer, then
restores the global seed 42.  Takes the PRNG state before the call and
returns the content together with the state after the call. -/
def generateFileContent (lorem : Nat → String × Nat) (fileId : Nat) (fakerState : Nat) :
    String × Nat :=
  let seeded := fakerSeed (fileId * 1000)
  let header := ["// File ID: " ++ toString fileId, "// Generated content for testing\n"]
  let body := (contentLoop lorem 50 0 seeded).1
  (String.intercalate "\n" (header ++ body ++ ["\n// End of file"]), fakerSeed 42)

/-
  Helper lemmas.
-/

/-- Projection of a commit to the fields produced by the builder's own
arithmetic (everything except the externally drawn SHA). -/
def Commit.core (c : Commit) : Nat × Nat × Nat :=
  (c.id, c.repo_id, c.author_id)

/-- The inner commit loop produces the same ids/repo links/authors and the
same final commit counter for every SHA stream. -/
theorem genRepoCommits_core (s s' : Nat → String) (repoId : Nat) :
    ∀ (fuel commitId : Nat),
      (genRepoCommits s repoId commitId fuel).1.map Commit.core =
        (genRepoCommits s' repoId commitId fuel).1.map Commit.core ∧
      (genRepoCommits s repoId commitId fuel).2 =
        (genRepoCommits s' repoId commitId fuel).2
  | 0, _ => ⟨rfl, rfl⟩
  | fuel + 1, commitId => by
    have ih := genRepoCommits_core s s' repoId fuel (commitId + 1)
    by_cases h : commitId ≤ 200
    · simp [genRepoCommits, h, Commit.core, generateCommit, ih.1, ih.2]
    · simp [genRepoCommits, h]

/-- The outer commit loop produces the same ids/repo links/authors for
every SHA stream. -/
theorem genCommitsLoop_core (s s' : Nat → String) :
    ∀ (remaining repoId commitId : Nat),
      (genCommitsLoop s repoId remaining commitId).map Commit.core =
        (genCommitsLoop s' repoId remaining commitId).map Commit.core
  | 0, _, _ => rfl
  | remaining + 1, repoId, commitId => by
    obtain ⟨h1, h2⟩ := genRepoCommits_core s s' repoId (numCommitsFor repoId) commitId
    have ih := genCommitsLoop_core s s' remaining (repoId + 1)
      (genRepoCommits s repoId commitId (numCommitsFor repoId)).2
    simp only [genCommitsLoop, List.map_append]
    rw [h1, ← h2, ih]

/-- The commit collection has the same ids/repo links/authors for every
SHA stream; the concrete stand-in stream is a faithful representative. -/
theorem genCommits_core (shaOf : Nat → String) :
    (genCommits shaOf).map Commit.core = (genCommits fakerShaStream).map Commit.core :=
  genCommitsLoop_core shaOf fakerShaStream 40 1 1

/-- The commit collection's length does not depend on the SHA stream. -/
theorem genCommits_length (shaOf : Nat → String) :
    (genCommits shaOf).length = (genCommits fakerShaStream).length := by
  have h := congrArg List.length (genCommits_core shaOf)
  rwa [List.length_map, List.length_map] at h

/-- The commit id sequence does not depend on the SHA stream. -/
theorem genCommits_map_id (shaOf : Nat → String) :
    (genCommits shaOf).map Commit.id =
      ((genCommits fakerShaStream).map Commit.core).map Prod.fst := by
  rw [← genCommits_core shaOf, List.map_map]
  rfl

/-- Per-repo commit counts do not depend on the SHA stream. -/
theorem getCommitsByRepo_length (shaOf : Nat → String) (r : Int) :
    (getCommitsByRepo (genCommits shaOf) r).length =
      (getCommitsByRepo (genCommits fakerShaStream) r).length := by
  unfold getCommitsByRepo
  rw [← List.countP_eq_length_filter, ← List.countP_eq_length_filter]
  have key : ∀ l : List Commit,
      l.countP (fun c => ((c.repo_id : Int) == r)) =
        (l.map Commit.core).countP (fun t => ((t.2.1 : Int) == r)) := by
    intro l
    rw [List.countP_map]
    rfl
  rw [key, key, genCommits_core]

/-
  Claims.
-/

/-- C1: after the dataset builder runs, the four collections have exactly
the specified cardinalities — 20 users with ids 1..20, 50 repos with ids
1..50, exactly 200 commits with dense ids 1..200 and 30 files with ids
1..30 — and although the per-repo formula `3 + (repo_id % 6)` summed over
repos 1..40 would yield 220 commits, the builder's cap produces exactly
200. -/
theorem claim_C1_cardinalities (shaOf : Nat → String) :
    (generateAllData shaOf).users.length = 20 ∧
    (generateAllData shaOf).users.map User.id = List.range' 1 20 ∧
    (generateAllData shaOf).repos.length = 50 ∧
    (generateAllData shaOf).repos.map Repo.id = List.range' 1 50 ∧
    (generateAllData shaOf).commits.length = 200 ∧
    (generateAllData shaOf).commits.map Commit.id = List.range' 1 200 ∧
    (generateAllData shaOf).files.length = 30 ∧
    (generateAllData shaOf).files.map File.id = List.range' 1 30 ∧
    ((List.range' 1 40).map numCommitsFor).sum = 220 := by
  refine ⟨?_, ?_, ?_, ?_, ?_, ?_, ?_, ?_, by decide⟩
  · show genUsers.length = 20
    decide
  · show genUsers.map User.id = List.range' 1 20
    decide
  · show genRepos.length = 50
    decide
  · show genRepos.map Repo.id = List.range' 1 50
    decide
  · show (genCommits shaOf).length = 200
    rw [genCommits_length]
    decide
  · show (genCommits shaOf).map Commit.id = List.range' 1 200
    rw [genCommits_map_id]
    decide
  · show genFiles.length = 30
    decide
  · show genFiles.map File.id = List.range' 1 30
    decide

/-- C2 (counterexample): the claim asserts that every repo with id in
1..40 has between 3 and 8 matching commits, but the 200-commit cap starves
the tail: repo 38 has zero matching commits in the built dataset. -/
theorem claim_C2_counterexample :
    (getCommitsByRepo (generateAllData fakerShaStream).commits (38 : Int)).length = 0 ∧
    ¬ (3 ≤ (getCommitsByRepo (generateAllData fakerShaStream).commits (38 : Int)).length ∧
        (getCommitsByRepo (generateAllData fakerShaStream).commits (38 : Int)).length ≤ 8) := by
  decide

/-- C2 (amended): repos 41..50 have zero matching commits; repos 1..36
have exactly `3 + (repo_id % 6)` matching commits, a value between 3 and 8
inclusive; because commit generation stops at the 200-commit cap, repo 37
has exactly 2 matching commits and repos 38..40 have zero. -/
theorem claim_C2_per_repo_counts (shaOf : Nat → String) (r : Nat)
    (h1 : 1 ≤ r) (h50 : r ≤ 50) :
    (41 ≤ r → (getCommitsByRepo (generateAllData shaOf).commits (r : Int)).length = 0) ∧
    (r ≤ 36 →
      (getCommitsByRepo (generateAllData shaOf).commits (r : Int)).length = numCommitsFor r ∧
      3 ≤ (getCommitsByRepo (generateAllData shaOf).commits (r : Int)).length ∧
      (getCommitsByRepo (generateAllData shaOf).commits (r : Int)).length ≤ 8) ∧
    (r = 37 → (getCommitsByRepo (generateAllData shaOf).commits (r : Int)).length = 2) ∧
    (38 ≤ r → r ≤ 40 →
      (getCommitsByRepo (generateAllData shaOf).commits (r : Int)).length = 0) := by
  have hlen : (getCommitsByRepo (generateAllData shaOf).commits (r : Int)).length =
      (getCommitsByRepo (genCommits fakerShaStream) (r : Int)).length :=
    getCommitsByRepo_length shaOf r
  rw [hlen]
  have key : ∀ m ∈ List.range' 1 50,
      (41 ≤ m → (getCommitsByRepo (genCommits fakerShaStream) (m : Int)).length = 0) ∧
      (m ≤ 36 →
        (getCommitsByRepo (genCommits fakerShaStream) (m : Int)).length = numCommitsFor m ∧
        3 ≤ (getCommitsByRepo (genCommits fakerShaStream) (m : Int)).length ∧
        (getCommitsByRepo (genCommits fakerShaStream) (m : Int)).length ≤ 8) ∧
      (m = 37 → (getCommitsByRepo (genCommits fakerShaStream) (m : Int)).length = 2) ∧
      (38 ≤ m → m ≤ 40 →
        (getCommitsByRepo (genCommits fakerShaStream) (m : Int)).length = 0) := by
    decide
  exact key r (List.mem_range'_1.mpr ⟨h1, by omega⟩)

/-- C2 (witness): the amended statement instantiated at repo 12, whose
commit count is `3 + (12 % 6) = 3`. -/
theorem claim_C2_witness :
    (41 ≤ 12 →
      (getCommitsByRepo (generateAllData fakerShaStream).commits ((12 : Nat) : Int)).length = 0) ∧
    ((12 : Nat) ≤ 36 →
      (getCommitsByRepo (generateAllData fakerShaStream).commits ((12 : Nat) : Int)).length =
        numCommitsFor 12 ∧
      3 ≤ (getCommitsByRepo (generateAllData fakerShaStream).commits ((12 : Nat) : Int)).length ∧
      (getCommitsByRepo (generateAllData fakerShaStream).commits ((12 : Nat) : Int)).length ≤ 8) ∧
    ((12 : Nat) = 37 →
      (getCommitsByRepo (generateAllData fakerShaStream).commits ((12 : Nat) : Int)).length = 2) ∧
    (38 ≤ (12 : Nat) → (12 : Nat) ≤ 40 →
      (getCommitsByRepo (generateAllData fakerShaStream).commits ((12 : Nat) : Int)).length = 0) :=
  claim_C2_per_repo_counts fakerShaStream 12 (by decide) (by decide)

/-- C3 (counterexample): user id 21 does not exist in the collection and
the rate limit does not fire on a fresh counter, yet the hard-tier
user-repos handler returns 403, not the 404 the claim asserts — the
permission branch `userId > 15` is checked before the existence branch. -/
theorem claim_C3_counterexample :
    getUserById genUsers (21 : Int) = none ∧
    (0 + 1) % 5 ≠ 0 ∧
    (hardUserRepos 0 21).1.status = 403 ∧
    ¬ (hardUserRepos 0 21).1.status = 404 := by
  decide

/-- C3 (amended): when the rate limit does not fire, a user id absent from
the collection yields 404 only when it is not above the permission
threshold (absent ids ≤ 15, i.e. ids below 1) and yields 403 when it is
above 15 (absent ids above 20); overall the 403 response is returned
exactly for the ids greater than 15 other than the deleted user 18 (which
yields 404), regardless of whether the id exists. -/
theorem claim_C3_user_repos_errors (counter : Nat) (userId : Int)
    (hrl : (counter + 1) % 5 ≠ 0) :
    (getUserById genUsers userId = none →
      ((userId ≤ 15 → (hardUserRepos counter userId).1.status = 404) ∧
       (15 < userId → (hardUserRepos counter userId).1.status = 403))) ∧
    ((hardUserRepos counter userId).1.status = 403 ↔ 15 < userId ∧ userId ≠ 18) := by
  have hbeq : isRateLimited (counter + 1) = false := by
    simp [isRateLimited, hrl]
  have h18 : getUserById genUsers (18 : Int) = some { id := 18, deleted := true } := by
    decide
  have hdel : ∀ u : User, u ∈ genUsers → u.deleted = true → u.id = 18 := by
    decide
  unfold hardUserRepos
  simp only [getRequestCount, hbeq, Bool.false_eq_true, if_false]
  cases hu : getUserById genUsers userId with
  | none =>
    have hne18 : userId ≠ 18 := by
      intro h
      rw [h, h18] at hu
      exact Option.noConfusion hu
    by_cases h15 : 15 < userId
    · simp [optionDeleted, h15, hne18]
    · simp [optionDeleted, h15, hne18]
  | some u =>
    have hu' : genUsers.find? (fun x => ((x.id : Int) == userId)) = some u := hu
    have hmem : u ∈ genUsers := List.mem_of_find?_eq_some hu'
    have huid := List.find?_some hu'
    have huid' : (u.id : Int) = userId := by
      simpa using huid
    by_cases hd : u.deleted
    · have : u.id = 18 := hdel u hmem hd
      have h18' : userId = 18 := by omega
      simp [optionDeleted, hd, h18']
    · have hne18 : userId ≠ 18 := by
        intro h
        rw [h, h18] at hu
        have : u = { id := 18, deleted := true } := by
          exact Option.some_injective _ hu.symm
        rw [this] at hd
        exact hd rfl
      by_cases h15 : 15 < userId
      · simp [optionDeleted, hd, h15, hne18]
      · simp [optionDeleted, hd, h15, hne18]

/-- C3 (witness): the amended statement instantiated at the fresh counter
0 and the absent user id 21, which receives 403. -/
theorem claim_C3_witness :
    (getUserById genUsers (21 : Int) = none →
      (((21 : Int) ≤ 15 → (hardUserRepos 0 21).1.status = 404) ∧
       ((15 : Int) < 21 → (hardUserRepos 0 21).1.status = 403))) ∧
    ((hardUserRepos 0 21).1.status = 403 ↔ (15 : Int) < 21 ∧ (21 : Int) ≠ 18) :=
  claim_C3_user_repos_errors 0 21 (by decide)

/-- C4: for every sequence, page `p ≥ 1` and per-page `n ≥ 1`,
paginate returns the slice `seq[(p-1)*n : p*n]` as `data` (empty, never an
error, when the start index is at or past the end), echoes `page` and
`per_page` unvalidated, reports `total` as the sequence length and
`total_pages` as the ceiling of `total / n`. -/
theorem claim_C4_paginate {α : Type} (seq : List α) (p : Int) (n : Nat)
    (hp : 1 ≤ p) (hn : 1 ≤ n) :
    (paginate seq p n).data = (seq.drop ((p - 1) * n).toNat).take n ∧
    (seq.length ≤ ((p - 1) * n).toNat → (paginate seq p n).data = []) ∧
    (paginate seq p n).total = seq.length ∧
    (paginate seq p n).page = p ∧
    (paginate seq p n).per_page = n ∧
    (paginate seq p n).total_pages = seq.length ⌈/⌉ n := by
  have hstart : (0 : Int) ≤ (p - 1) * n :=
    mul_nonneg (by omega) (by positivity)
  have hdata : (paginate seq p n).data = (seq.drop ((p - 1) * n).toNat).take n := by
    show jsSlice seq ((p - 1) * n) ((p - 1) * n + n) =
      (seq.drop ((p - 1) * n).toNat).take n
    set s := ((p - 1) * (n : Int)).toNat with hs
    have hb1 : jsSliceBound seq.length ((p - 1) * n) = min s seq.length := by
      unfold jsSliceBound
      rw [if_neg (by omega)]
    have hstop : ((p - 1) * (n : Int) + n).toNat = s + n := by omega
    have hb2 : jsSliceBound seq.length ((p - 1) * n + n) = min (s + n) seq.length := by
      unfold jsSliceBound
      rw [if_neg (by omega), hstop]
    unfold jsSlice
    rw [hb1, hb2]
    rcases le_or_lt seq.length s with hle | hlt
    · rw [min_eq_right hle, min_eq_right (by omega : seq.length ≤ s + n)]
      rw [List.take_length, List.drop_length, List.drop_eq_nil_of_le hle]
      simp
    · rw [min_eq_left hlt.le, List.take_drop]
      congr 1
      rcases le_or_lt (s + n) seq.length with h2 | h2
      · rw [min_eq_left h2]
      · rw [min_eq_right h2.le, List.take_length, List.take_of_length_le h2.le]
  refine ⟨hdata, ?_, rfl, rfl, rfl, ?_⟩
  · intro hpast
    rw [hdata, List.drop_eq_nil_of_le hpast]
    simp
  · show (seq.length + n - 1) / n = seq.length ⌈/⌉ n
    rw [Nat.ceilDiv_eq_add_pred_div]

/-- C4 (witness): paginate on the five-element sequence `[10, 20, 30, 40,
50]` with page 2 and per_page 2 returns the slice `[30, 40]`, echoes the
inputs and reports 3 total pages. -/
theorem claim_C4_witness :
    (paginate [10, 20, 30, 40, 50] (2 : Int) 2).data =
      (([10, 20, 30, 40, 50] : List Nat).drop (((2 : Int) - 1) * 2).toNat).take 2 ∧
    (([10, 20, 30, 40, 50] : List Nat).length ≤ (((2 : Int) - 1) * 2).toNat →
      (paginate [10, 20, 30, 40, 50] (2 : Int) 2).data = []) ∧
    (paginate [10, 20, 30, 40, 50] (2 : Int) 2).total = ([10, 20, 30, 40, 50] : List Nat).length ∧
    (paginate [10, 20, 30, 40, 50] (2 : Int) 2).page = 2 ∧
    (paginate [10, 20, 30, 40, 50] (2 : Int) 2).per_page = 2 ∧
    (paginate [10, 20, 30, 40, 50] (2 : Int) 2).total_pages =
      ([10, 20, 30, 40, 50] : List Nat).length ⌈/⌉ 2 :=
  claim_C4_paginate [10, 20, 30, 40, 50] 2 2 (by decide) (by decide)

/-- C5: starting from a freshly initialized (or reset) request counter of
0, performing the rate-limit check sequence (increment, then test
divisibility by 5) 15 times in a row triggers rate limiting exactly 3
times, namely on the 5th, 10th and 15th calls, and on no others. -/
theorem claim_C5_rate_limit_periodicity :
    runRateLimitChecks 15 resetRequestCounter =
      [false, false, false, false, true, false, false, false, false, true,
       false, false, false, false, true] ∧
    (runRateLimitChecks 15 resetRequestCounter).count true = 3 := by
  decide

/-- C6: the direct single-user fetch of the soft-deleted user 18 returns
410 (gone), distinct from 404, while the nested repos listing for the same
user returns 404; for a user id absent from the collection both operations
return 404. -/
theorem claim_C6_gone_vs_not_found (commits : List Commit) (userId : Int)
    (habsent : getUserById genUsers userId = none) :
    (mediumGetUser commits 18).status = 410 ∧
    (mediumGetUserRepos 18).status = 404 ∧
    (mediumGetUser commits 18).status ≠ (mediumGetUserRepos 18).status ∧
    (mediumGetUser commits userId).status = 404 ∧
    (mediumGetUserRepos userId).status = 404 := by
  have h18 : getUserById genUsers (18 : Int) = some { id := 18, deleted := true } := by
    decide
  refine ⟨?_, ?_, ?_, ?_, ?_⟩
  · unfold mediumGetUser
    rw [h18]
    rfl
  · unfold mediumGetUserRepos
    rw [h18]
    rfl
  · unfold mediumGetUser mediumGetUserRepos
    rw [h18]
    show (410 : Nat) ≠ 404
    decide
  · unfold mediumGetUser
    rw [habsent]
  · unfold mediumGetUserRepos
    rw [habsent]

/-- C6 (witness): the statement instantiated at the empty commit list and
the absent user id 21. -/
theorem claim_C6_witness :
    (mediumGetUser [] 18).status = 410 ∧
    (mediumGetUserRepos 18).status = 404 ∧
    (mediumGetUser [] 18).status ≠ (mediumGetUserRepos 18).status ∧
    (mediumGetUser [] 21).status = 404 ∧
    (mediumGetUserRepos 21).status = 404 :=
  claim_C6_gone_vs_not_found [] 21 (by decide)

/-- C10: in the hard-tier user-repos handler the rate-limit check
(increment, then divisibility-by-5 test) precedes every id-based branch:
whenever the post-increment counter is divisible by 5, the handler returns
429 with `retry_after` 2 — never the 404 or 403 the id would otherwise
produce — for every user id whatsoever. -/
theorem claim_C10_rate_limit_precedence (counter : Nat) (userId : Int)
    (h : (counter + 1) % 5 = 0) :
    (hardUserRepos counter userId).1.status = 429 ∧
    (hardUserRepos counter userId).1.retry_after = some 2 ∧
    (hardUserRepos counter userId).1.status ≠ 404 ∧
    (hardUserRepos counter userId).1.status ≠ 403 ∧
    (hardUserRepos counter userId).2 = counter + 1 := by
  unfold hardUserRepos
  simp [getRequestCount, isRateLimited, h]

/-- C10 (witness): the statement instantiated at counter state 4 (the 5th
call) and the soft-deleted user id 18, which would otherwise yield 404. -/
theorem claim_C10_witness :
    (hardUserRepos 4 18).1.status = 429 ∧
    (hardUserRepos 4 18).1.retry_after = some 2 ∧
    (hardUserRepos 4 18).1.status ≠ 404 ∧
    (hardUserRepos 4 18).1.status ≠ 403 ∧
    (hardUserRepos 4 18).2 = 4 + 1 :=
  claim_C10_rate_limit_precedence 4 18 (by decide)

/-- C8: file-content generation reseeds the shared PRNG with
`file_id * 1000` before producing the body and restores the global seed 42
immediately afterwards, so for every sentence-drawing function the content
produced for a given file id is the same string regardless of the PRNG
state left by any prior history, and the PRNG state after the call is
always the seed-42 state, leaving later draws unaffected. -/
theorem claim_C8_file_content_determinism (lorem : Nat → String × Nat)
    (fileId : Nat) (st st' : Nat) :
    (generateFileContent lorem fileId st).1 = (generateFileContent lorem fileId st').1 ∧
    (generateFileContent lorem fileId st).2 = fakerSeed 42 ∧
    (generateFileContent lorem fileId st).2 = (generateFileContent lorem fileId st').2 :=
  ⟨rfl, rfl, rfl⟩

/-- C9: in the hard-tier repo-commits handler, repo id 5 always echoes
`next_page` equal to the requested page with `has_more` true, for every
requested page without exception; every other repo id that reaches the
normal branch (not divisible by 7, not 13, not 5) gets
`next_page = page + 1` exactly when `page < total_pages` and null
otherwise, with `has_more` true exactly when more pages remain. -/
theorem claim_C9_repo_commits_pagination (shaOf : Nat → String) :
    (∀ page : Int,
      (hardRepoCommits (generateAllData shaOf).commits 5 page).status = 200 ∧
      (hardRepoCommits (generateAllData shaOf).commits 5 page).next_page = some page ∧
      (hardRepoCommits (generateAllData shaOf).commits 5 page).has_more = true) ∧
    (∀ (repoId page : Int), repoId % 7 ≠ 0 → repoId ≠ 13 → repoId ≠ 5 →
      (hardRepoCommits (generateAllData shaOf).commits repoId page).next_page =
        (if page <
            ((paginate (getCommitsByRepo (generateAllData shaOf).commits repoId)
              page 10).total_pages : Int)
         then some (page + 1) else none) ∧
      ((hardRepoCommits (generateAllData shaOf).commits repoId page).has_more = true ↔
        page <
          ((paginate (getCommitsByRepo (generateAllData shaOf).commits repoId)
            page 10).total_pages : Int))) := by
  constructor
  · intro page
    have h7 : ((5 : Int) % 7 == 0) = false := by decide
    have h13 : ((5 : Int) == 13) = false := by decide
    have h5 : ((5 : Int) == 5) = true := by decide
    unfold hardRepoCommits
    rw [h7, h13, h5]
    exact ⟨rfl, rfl, rfl⟩
  · intro repoId page h7 h13 h5
    have hb7 : ((repoId : Int) % 7 == 0) = false := by
      simpa using h7
    have hb13 : ((repoId : Int) == 13) = false := by
      simpa using h13
    have hb5 : ((repoId : Int) == 5) = false := by
      simpa using h5
    unfold hardRepoCommits
    rw [hb7, hb13, hb5]
    constructor
    · rfl
    · exact ⟨fun h => of_decide_eq_true h, fun h => decide_eq_true h⟩

/-- C9 (witness): the normal-branch statement instantiated at repo 3
(6 commits, one page of 10) and page 1, together with the trap branch at
repo 5 and page 9. -/
theorem claim_C9_witness :
    ((hardRepoCommits (generateAllData fakerShaStream).commits 5 9).status = 200 ∧
     (hardRepoCommits (generateAllData fakerShaStream).commits 5 9).next_page = some 9 ∧
     (hardRepoCommits (generateAllData fakerShaStream).commits 5 9).has_more = true) ∧
    ((hardRepoCommits (generateAllData fakerShaStream).commits 3 1).next_page =
      (if (1 : Int) <
          ((paginate (getCommitsByRepo (generateAllData fakerShaStream).commits 3)
            1 10).total_pages : Int)
       then some (1 + 1) else none) ∧
     ((hardRepoCommits (generateAllData fakerShaStream).commits 3 1).has_more = true ↔
       (1 : Int) <
         ((paginate (getCommitsByRepo (generateAllData fakerShaStream).commits 3)
           1 10).total_pages : Int))) :=
  ⟨(claim_C9_repo_commits_pagination fakerShaStream).1 9,
   (claim_C9_repo_commits_pagination fakerShaStream).2 3 1 (by decide) (by decide) (by decide)⟩

/-- C7: commit lookup by SHA returns the first commit in collection order
whose SHA equals the query or starts with it; in particular, for every
commit in the built dataset, querying with the first 7 characters of its
SHA returns a matching commit at or before it in collection order, before
which no commit matches — i.e. the commit itself, or the earliest commit
sharing the prefix; uniqueness of the prefix is not validated. -/
theorem claim_C7_sha_prefix_lookup (shaOf : Nat → String) (c : Commit)
    (hc : c ∈ (generateAllData shaOf).commits) :
    ∃ b : Commit,
      findCommitBySha (generateAllData shaOf).commits (c.sha.take 7) = some b ∧
      shaMatches (c.sha.take 7) b = true ∧
      ∃ before after : List Commit,
        (generateAllData shaOf).commits = before ++ b :: after ∧
        (∀ a ∈ before, shaMatches (c.sha.take 7) a = false) ∧
        c ∈ b :: after := by
  have hmatch : shaMatches (c.sha.take 7) c = true := by
    unfold shaMatches
    have hpre : (c.sha.take 7).data.isPrefixOf c.sha.data = true := by
      rw [String.data_take]
      exact List.isPrefixOf_iff_prefix.mpr (List.take_prefix 7 c.sha.data)
    rw [hpre, Bool.or_true]
  have hsome : ((generateAllData shaOf).commits.find? (shaMatches (c.sha.take 7))).isSome := by
    rw [List.find?_isSome]
    exact ⟨c, hc, hmatch⟩
  obtain ⟨b, hb⟩ := Option.isSome_iff_exists.mp hsome
  obtain ⟨hpb, before, after, heq, hfalse⟩ := List.find?_eq_some.mp hb
  refine ⟨b, hb, hpb, before, after, heq, ?_, ?_⟩
  · intro a ha
    simpa using hfalse a ha
  · rw [heq] at hc
    rcases List.mem_append.mp hc with h | h
    · have : shaMatches (c.sha.take 7) c = false := by
        simpa using hfalse c h
      rw [hmatch] at this
      exact Bool.noConfusion this
    · exact h

/-- C7 (witness): the statement instantiated at the concrete SHA stream
and the first commit of the dataset. -/
theorem claim_C7_witness :
    ∃ b : Commit,
      findCommitBySha (generateAllData fakerShaStream).commits
        ((Commit.mk 1 1 2 "1").sha.take 7) = some b ∧
      shaMatches ((Commit.mk 1 1 2 "1").sha.take 7) b = true ∧
      ∃ before after : List Commit,
        (generateAllData fakerShaStream).commits = before ++ b :: after ∧
        (∀ a ∈ before, shaMatches ((Commit.mk 1 1 2 "1").sha.take 7) a = false) ∧
        Commit.mk 1 1 2 "1" ∈ b :: after :=
  claim_C7_sha_prefix_lookup fakerShaStream (Commit.mk 1 1 2 "1") (by decide)

end APISim
